import Mathlib

/-!
Verification of the GraphQL CRM mutation workflows.

The mutation workflows of `src/schema.py` (CreateCustomer,
BulkCreateCustomers, CreateProduct, CreateOrder) are embedded as pure
Lean functions over an explicit `Store` value standing for the database.
The entity records follow the data model of the specification, since the
ORM model file itself is not part of the source tree.  Prices are
modelled as exact rationals (the spec declares `price` a decimal), ids
as naturals, timestamps as naturals, and GraphQL's nullable strings as
`Option String`.  Each mutation takes the store and its arguments and
returns a result record carrying the created entity (or `none`), the
error-message list, and the resulting store.
-/

/-- Modelled from the spec: Customer record.  The ORM model file
(`crm/models.py`) is absent from the source tree; fields follow
specification section 3: id (store-assigned), name, email, optional
phone.  `created_at` plays no role in any workflow and is omitted. -/
structure Customer where
  id : Nat
  name : String
  email : String
  phone : Option String
deriving Repr, DecidableEq

/-- Modelled from the spec: Product record with decimal price (exact
rational here) and integer stock. -/
structure Product where
  id : Nat
  name : String
  price : Rat
  stock : Int
deriving Repr, DecidableEq

/-- Modelled from the spec: Order record.  The many-to-many relation to
products is carried as the list of associated product ids; `order_date`
is a timestamp modelled as a natural number. -/
structure Order where
  id : Nat
  customerId : Nat
  productIds : List Nat
  total_amount : Rat
  order_date : Nat
deriving Repr, DecidableEq

/-- The database state seen by the workflows: the three entity tables. -/
structure Store where
  customers : List Customer
  products : List Product
  orders : List Order
deriving Repr, DecidableEq

/-- Result shape of CreateCustomer: customer-or-null, message, errors,
and the store after the call. -/
structure CustomerResult where
  customer : Option Customer
  message : String
  errors : List String
  store : Store
deriving Repr, DecidableEq

/-- Result shape of CreateProduct. -/
structure ProductResult where
  product : Option Product
  errors : List String
  store : Store
deriving Repr, DecidableEq

/-- Result shape of CreateOrder. -/
structure OrderResult where
  order : Option Order
  errors : List String
  store : Store
deriving Repr, DecidableEq

/-- Result shape of BulkCreateCustomers. -/
structure BulkResult where
  customers : List Customer
  errors : List String
  store : Store
deriving Repr, DecidableEq

/-- One row of BulkCreateCustomers input. -/
structure CustomerInput where
  name : String
  email : String
  phone : Option String
deriving Repr, DecidableEq

/-- Python truthiness of an optional string: `None` and `""` are falsy,
every other string is truthy. -/
def strTruthy : Option String → Bool
  | none => false
  | some s => !(s == "")

/-- Translation of `Customer.objects.filter(email=email).exists()`:
case-sensitive exact match against the stored customers. -/
def emailTaken (s : Store) (email : String) : Bool :=
  s.customers.any (fun c => c.email == email)

/-- Translation of `Customer.objects.get(id=customer_id)`, with the
`DoesNotExist` outcome as `none`. -/
def findCustomer (s : Store) (cid : Nat) : Option Customer :=
  s.customers.find? (fun c => c.id == cid)

/-- The code-point ranges of the Unicode decimal-digit category Nd
(Unicode 14.0, as shipped with CPython 3.11): exactly the 660
characters that Python's `\d` matches in a str pattern.  The ASCII
digits 0-9 are the first range; later Unicode versions only add further
ranges for new scripts. -/
def ndRanges : List (Nat × Nat) :=
  [(48, 57), (1632, 1641), (1776, 1785), (1984, 1993), (2406, 2415), (2534, 2543),
   (2662, 2671), (2790, 2799), (2918, 2927), (3046, 3055), (3174, 3183), (3302, 3311),
   (3430, 3439), (3558, 3567), (3664, 3673), (3792, 3801), (3872, 3881), (4160, 4169),
   (4240, 4249), (6112, 6121), (6160, 6169), (6470, 6479), (6608, 6617), (6784, 6793),
   (6800, 6809), (6992, 7001), (7088, 7097), (7232, 7241), (7248, 7257), (42528, 42537),
   (43216, 43225), (43264, 43273), (43472, 43481), (43504, 43513), (43600, 43609),
   (44016, 44025), (65296, 65305), (66720, 66729), (68912, 68921), (69734, 69743),
   (69872, 69881), (69942, 69951), (70096, 70105), (70384, 70393), (70736, 70745),
   (70864, 70873), (71248, 71257), (71360, 71369), (71472, 71481), (71904, 71913),
   (72016, 72025), (72784, 72793), (73040, 73049), (73120, 73129), (92768, 92777),
   (92864, 92873), (93008, 93017), (120782, 120831), (123200, 123209), (123632, 123641),
   (125264, 125273), (130032, 130041)]

/-- The character class `\d` of a Python str pattern: a Unicode decimal
digit (category Nd), not just the ASCII digits 0-9. -/
def isDigitPy (c : Char) : Bool :=
  ndRanges.any (fun r => r.1 ≤ c.toNat && c.toNat ≤ r.2)

/-- The `\+?` of the pattern: an optional leading plus sign.  When the
first character is `+` the regex engine consumes it; the backtracking
alternative of not consuming it can never succeed, because the next
pattern element requires a digit and `+` is not one.  So stripping a
leading plus is faithful. -/
def phoneBody (cs : List Char) : List Char :=
  if cs.head? = some '+' then cs.tail else cs

/-- The effect of `$` without MULTILINE in Python: it matches at the end
of the string and also just before a newline that ends the string.
Since neither `\d` nor `-` matches a newline, the pattern as a whole
matches exactly when the string with one trailing newline removed (when
there is one) matches up to its strict end.  So the `$` is modelled by
stripping one trailing newline before the strict match. -/
def pyDollarBody (cs : List Char) : List Char :=
  if cs.getLast? = some '\n' then cs.dropLast else cs

/-- The `\d[\d\-]{7,}` part of the pattern applied to the remaining
characters, to their strict end: one decimal digit, then at least seven
further characters, each a decimal digit or a hyphen. -/
def matchTail : List Char → Bool
  | [] => false
  | d :: tail =>
    isDigitPy d && decide (7 ≤ tail.length) && tail.all (fun c => isDigitPy c || c == '-')

/-- Translation of `re.match(r"^\+?\d[\d\-]{7,}$", phone)` being
non-null: an optional leading plus, then one decimal digit, then at
least seven further characters, each a decimal digit or a hyphen, up to
the end of the string or a single newline ending the string.  Digits
are the Unicode Nd characters (see `isDigitPy`), and the trailing
newline is admitted by `$` (see `pyDollarBody`), both as in Python. -/
def matchPhone (phone : String) : Bool :=
  matchTail (phoneBody (pyDollarBody phone.toList))

/-- Translation of the condition `phone and not re.match(...)` guarding
the phone-format error. -/
def phoneCheckFails (phone : Option String) : Bool :=
  strTruthy phone && !matchPhone (phone.getD "")

/-- The phone-format error message of `src/schema.py`. -/
def phoneMsg : String := "Invalid phone format (use +1234567890 or 123-456-7890)"

/-- Translation of `CreateCustomer.mutate` from `src/schema.py`: collect
the email-uniqueness and phone-format violations in check order; on any
violation return a null customer, the message "Validation failed" and
the collected errors without touching the store; otherwise persist the
new customer (store-assigned id) and return it with the success
message. -/
def createCustomer (s : Store) (name email : String) (phone : Option String) :
    CustomerResult :=
  let errors : List String := []
  let errors := if emailTaken s email then errors ++ ["Email already exists"] else errors
  let errors := if phoneCheckFails phone then errors ++ [phoneMsg] else errors
  if errors ≠ [] then
    ⟨none, "Validation failed", errors, s⟩
  else
    let c : Customer := ⟨s.customers.length + 1, name, email, phone⟩
    ⟨some c, "Customer created successfully", [], { s with customers := s.customers ++ [c] }⟩

/-- Translation of `CreateProduct.mutate` from `src/schema.py`: the
price and stock checks both always run, violations accumulate in check
order; on any violation return a null product and the errors without
touching the store. -/
def createProduct (s : Store) (name : String) (price : Rat) (stock : Int) :
    ProductResult :=
  let errors : List String := []
  let errors := if price ≤ 0 then errors ++ ["Price must be positive"] else errors
  let errors := if stock < 0 then errors ++ ["Stock cannot be negative"] else errors
  if errors ≠ [] then
    ⟨none, errors, s⟩
  else
    let p : Product := ⟨s.products.length + 1, name, price, stock⟩
    ⟨some p, [], { s with products := s.products ++ [p] }⟩

/-- Translation of `Product.objects.filter(id__in=product_ids)`: the
stored products (each table row once, in table order) whose id occurs in
the requested list. -/
def resolvedProducts (s : Store) (pids : List Nat) : List Product :=
  s.products.filter (fun p => decide (p.id ∈ pids))

/-- Translation of `CreateOrder.mutate` from `src/schema.py`: a
sequential gate with early returns — customer lookup, empty-list check,
resolved-count check — then the total is the sum of the resolved
products' prices and the order is persisted with the resolved product
set.  `now` stands for `timezone.now()`; a datetime argument is always
truthy in Python, so `order_date or timezone.now()` is `orderDate.getD
now`. -/
def createOrder (s : Store) (cid : Nat) (pids : List Nat)
    (orderDate : Option Nat) (now : Nat) : OrderResult :=
  match findCustomer s cid with
  | none => ⟨none, ["Invalid customer ID"], s⟩
  | some customer =>
    if pids = [] then
      ⟨none, ["At least one product must be provided"], s⟩
    else
      let products := resolvedProducts s pids
      if products.length ≠ pids.length then
        ⟨none, ["Some product IDs are invalid"], s⟩
      else
        let total := (products.map Product.price).sum
        let o : Order := ⟨s.orders.length + 1, customer.id, products.map Product.id,
                          total, orderDate.getD now⟩
        ⟨some o, [], { s with orders := s.orders ++ [o] }⟩

/-- Appending one persisted customer row to the store. -/
def addCustomer (s : Store) (c : Customer) : Store :=
  { s with customers := s.customers ++ [c] }

/-- Translation of the `try` block of one BulkCreateCustomers row: the
two `raise ValueError(...)` sites become `Except.error` with the
messages of `src/schema.py`; success builds the row's customer. -/
def bulkRowCheck (s : Store) (row : CustomerInput) : Except String Customer :=
  if emailTaken s row.email then
    .error ("Duplicate email: " ++ row.email)
  else if phoneCheckFails row.phone then
    .error ("Invalid phone format for " ++ row.email)
  else
    .ok ⟨s.customers.length + 1, row.name, row.email, row.phone⟩

/-- One iteration of the BulkCreateCustomers loop body: a failing row
appends `"Row <i+1>: <message>"` to the error list (Python enumerate
index `i` starts at 0), a passing row is persisted and appended to the
output list. -/
def bulkStep (acc : BulkResult) (ir : Nat × CustomerInput) : BulkResult :=
  match bulkRowCheck acc.store ir.2 with
  | .ok c => ⟨acc.customers ++ [c], acc.errors, addCustomer acc.store c⟩
  | .error m => ⟨acc.customers, acc.errors ++ ["Row " ++ toString (ir.1 + 1) ++ ": " ++ m], acc.store⟩

/-- Translation of `BulkCreateCustomers.mutate` from `src/schema.py`:
`for i, data in enumerate(input)` folding the loop body over the rows.
The `transaction.atomic` wrapper only matters for unexpected store
failures, which the embedding does not model. -/
def bulkCreateCustomers (s : Store) (rows : List CustomerInput) : BulkResult :=
  List.foldl bulkStep ⟨[], [], s⟩ rows.enum

/-- Row-by-row description of bulk creation as the claim states it: the
rows are processed in order against the running store; a failing row
contributes exactly one error string `"Row <1-based index>: <message>"`
and is not persisted; a passing row is persisted and added to the
output list; both lists follow input order. -/
def bulkRowsSpec (s : Store) (i : Nat) : List CustomerInput → BulkResult
  | [] => ⟨[], [], s⟩
  | row :: rest =>
    match bulkRowCheck s row with
    | .error m =>
      let r := bulkRowsSpec s (i + 1) rest
      ⟨r.customers, ("Row " ++ toString (i + 1) ++ ": " ++ m) :: r.errors, r.store⟩
    | .ok c =>
      let r := bulkRowsSpec (addCustomer s c) (i + 1) rest
      ⟨c :: r.customers, r.errors, r.store⟩

/-- Translation of `CreateCustomer.mutate` from `src/crm/schema.py`.
That module uses `re.match` but has no line importing the `re` module,
so once the email check has run, evaluating the condition
`phone and not re.match(...)` raises `NameError` for any truthy phone
(for a falsy phone the conjunction short-circuits and the name is never
evaluated).  The raised exception is modelled as `Except.error`; on the
surviving paths the behaviour matches `src/schema.py` (its
`objects.create` followed by `save` writes the same single row). -/
def createCustomerCrm (s : Store) (name email : String) (phone : Option String) :
    Except String CustomerResult :=
  let errors : List String := []
  let errors := if emailTaken s email then errors ++ ["Email already exists"] else errors
  if strTruthy phone then
    .error "NameError: name re is not defined"
  else
    if errors ≠ [] then
      .ok ⟨none, "Validation failed", errors, s⟩
    else
      let c : Customer := ⟨s.customers.length + 1, name, email, phone⟩
      .ok ⟨some c, "Customer created successfully", [],
           { s with customers := s.customers ++ [c] }⟩

/-- The price of the stored product with the given id (0 when absent;
only used where the id is known to resolve). -/
def priceOf (s : Store) (pid : Nat) : Rat :=
  ((s.products.find? (fun p => p.id == pid)).map Product.price).getD 0

/-- The total amount of the returned order, when one was returned. -/
def orderTotal (r : OrderResult) : Option Rat :=
  r.order.map Order.total_amount

/-- The set of product ids associated with the returned order, when one
was returned. -/
def orderProductSet (r : OrderResult) : Option (Finset Nat) :=
  r.order.map (fun o => o.productIds.toFinset)

/-- A small concrete store: one customer and two products with distinct
ids, mirroring the seeded data. -/
def storeA : Store :=
  ⟨[⟨1, "Alice", "alice@example.com", some "+1234567890"⟩],
   [⟨1, "Laptop", 5, 10⟩, ⟨2, "Phone", 7, 20⟩],
   []⟩

/-- The empty store. -/
def storeEmpty : Store := ⟨[], [], []⟩

/-- Description of a string accepted by the phone regex, in the words of
the amended claim: an optional leading plus, then one decimal digit,
then at least seven more characters, each a decimal digit or a hyphen,
followed by the end of the string or a single trailing newline. -/
def phoneShape (str : String) : Prop :=
  ∃ d tail nl,
    (str.toList = d :: (tail ++ nl) ∨ str.toList = '+' :: d :: (tail ++ nl)) ∧
    (nl = [] ∨ nl = ['\n']) ∧
    isDigitPy d = true ∧ 7 ≤ tail.length ∧ ∀ c ∈ tail, isDigitPy c = true ∨ c = '-'

/-- The store after a CreateCustomer call, as a function of the store
(the arguments held fixed), used to state repetition of a call. -/
def createCustomerStep (name email : String) (phone : Option String) (s : Store) : Store :=
  (createCustomer s name email phone).store

/-- The store after a CreateProduct call, as a function of the store. -/
def createProductStep (name : String) (price : Rat) (stock : Int) (s : Store) : Store :=
  (createProduct s name price stock).store

/-- The store after a CreateOrder call, as a function of the store. -/
def createOrderStep (cid : Nat) (pids : List Nat) (od : Option Nat) (now : Nat) (s : Store) : Store :=
  (createOrder s cid pids od now).store

/-- Helper: up to a strict end of the characters, the pattern body
accepts exactly the lists of the shape optional plus, decimal digit,
then at least seven decimal digits or hyphens. -/
theorem matchTail_body_iff (cs : List Char) :
    matchTail (phoneBody cs) = true ↔
      ∃ d tail, (cs = d :: tail ∨ cs = '+' :: d :: tail) ∧
        isDigitPy d = true ∧ 7 ≤ tail.length ∧
        ∀ c ∈ tail, isDigitPy c = true ∨ c = '-' := by
  cases cs with
  | nil => simp [phoneBody, matchTail]
  | cons c cs =>
    by_cases hc : c = '+'
    · subst hc
      have hb : phoneBody ('+' :: cs) = cs := by simp [phoneBody]
      rw [hb]
      cases cs with
      | nil =>
        simp only [matchTail]
        constructor
        · intro h; simp at h
        · rintro ⟨d, tail, (h | h), hd, hlen, _⟩
          · rw [List.cons.injEq] at h
            obtain ⟨hd2, ht⟩ := h
            rw [← hd2] at hd
            exact absurd hd (by decide)
          · rw [List.cons.injEq] at h
            exact absurd h.2.symm (List.cons_ne_nil d tail)
      | cons d tail =>
        simp only [matchTail, Bool.and_eq_true, decide_eq_true_eq, List.all_eq_true,
          Bool.or_eq_true, beq_iff_eq]
        constructor
        · rintro ⟨⟨hd, hlen⟩, hall⟩
          exact ⟨d, tail, Or.inr rfl, hd, hlen, hall⟩
        · rintro ⟨d', tail', (h | h), hd, hlen, hall⟩
          · rw [List.cons.injEq] at h
            obtain ⟨hd2, _⟩ := h
            rw [← hd2] at hd
            exact absurd hd (by decide)
          · rw [List.cons.injEq, List.cons.injEq] at h
            obtain ⟨_, hd2, ht⟩ := h
            subst hd2; subst ht
            exact ⟨⟨hd, hlen⟩, hall⟩
    · have hb : phoneBody (c :: cs) = c :: cs := by simp [phoneBody, hc]
      rw [hb]
      simp only [matchTail, Bool.and_eq_true, decide_eq_true_eq, List.all_eq_true,
        Bool.or_eq_true, beq_iff_eq]
      constructor
      · rintro ⟨⟨hd, hlen⟩, hall⟩
        exact ⟨c, cs, Or.inl rfl, hd, hlen, hall⟩
      · rintro ⟨d', tail', (h | h), hd, hlen, hall⟩
        · rw [List.cons.injEq] at h
          obtain ⟨hd2, ht⟩ := h
          subst hd2; subst ht
          exact ⟨⟨hd, hlen⟩, hall⟩
        · rw [List.cons.injEq] at h
          exact absurd h.1 hc

/-- Helper: the last character of an accepted pattern body is a decimal
digit or a hyphen, so never a newline. -/
theorem shape_getLast_ne_nl (str : String) (d : Char) (tail : List Char)
    (hdec : str.toList = d :: tail ∨ str.toList = '+' :: d :: tail)
    (hd : isDigitPy d = true)
    (hall : ∀ c ∈ tail, isDigitPy c = true ∨ c = '-') :
    str.toList.getLast? ≠ some '\n' := by
  intro h
  have hm : '\n' ∈ str.toList := List.mem_of_getLast?_eq_some h
  rcases hdec with hdec | hdec <;> rw [hdec] at hm
  · rcases List.mem_cons.mp hm with h1 | h1
    · rw [← h1] at hd; exact absurd hd (by decide)
    · rcases hall _ h1 with h2 | h2
      · exact absurd h2 (by decide)
      · exact absurd h2 (by decide)
  · rcases List.mem_cons.mp hm with h1 | h1
    · exact absurd h1 (by decide)
    · rcases List.mem_cons.mp h1 with h2 | h2
      · rw [← h2] at hd; exact absurd hd (by decide)
      · rcases hall _ h2 with h3 | h3
        · exact absurd h3 (by decide)
        · exact absurd h3 (by decide)

/-- Helper: the phone pattern accepts a string exactly when it has the
shape the amended claim describes (decimal digits, and the end of the
string possibly preceded by one newline admitted by the dollar). -/
theorem matchPhone_iff (str : String) : matchPhone str = true ↔ phoneShape str := by
  simp only [matchPhone, phoneShape]
  rw [matchTail_body_iff]
  by_cases h : str.toList.getLast? = some '\n'
  · obtain ⟨ys, hys⟩ := List.getLast?_eq_some_iff.mp h
    have hb : pyDollarBody str.toList = ys := by
      rw [pyDollarBody, if_pos h, hys, List.dropLast_concat]
    rw [hb]
    constructor
    · rintro ⟨d, tail, (hdec | hdec), hd, hlen, hall⟩
      · exact ⟨d, tail, ['\n'],
          Or.inl (by rw [hys, hdec]; simp), Or.inr rfl, hd, hlen, hall⟩
      · exact ⟨d, tail, ['\n'],
          Or.inr (by rw [hys, hdec]; simp), Or.inr rfl, hd, hlen, hall⟩
    · rintro ⟨d, tail, nl, hdec, (hnl | hnl), hd, hlen, hall⟩
      · subst hnl
        simp only [List.append_nil] at hdec
        exact absurd h (shape_getLast_ne_nl str d tail hdec hd hall)
      · subst hnl
        rcases hdec with hdec | hdec
        · have : str.toList = (d :: tail) ++ ['\n'] := by rw [hdec]; simp
          have hy : ys = d :: tail :=
            List.append_cancel_right (hys.symm.trans this)
          exact ⟨d, tail, Or.inl hy, hd, hlen, hall⟩
        · have : str.toList = ('+' :: d :: tail) ++ ['\n'] := by rw [hdec]; simp
          have hy : ys = '+' :: d :: tail :=
            List.append_cancel_right (hys.symm.trans this)
          exact ⟨d, tail, Or.inr hy, hd, hlen, hall⟩
  · have hb : pyDollarBody str.toList = str.toList := by
      rw [pyDollarBody, if_neg h]
    rw [hb]
    constructor
    · rintro ⟨d, tail, hdec, hd, hlen, hall⟩
      refine ⟨d, tail, [], ?_, Or.inl rfl, hd, hlen, hall⟩
      simpa using hdec
    · rintro ⟨d, tail, nl, hdec, (hnl | hnl), hd, hlen, hall⟩
      · subst hnl
        simp only [List.append_nil] at hdec
        exact ⟨d, tail, hdec, hd, hlen, hall⟩
      · subst hnl
        exfalso
        apply h
        rcases hdec with hdec | hdec
        · rw [hdec, show d :: (tail ++ ['\n']) = (d :: tail) ++ ['\n'] by simp]
          exact List.getLast?_concat _
        · rw [hdec, show '+' :: d :: (tail ++ ['\n']) = ('+' :: d :: tail) ++ ['\n'] by simp]
          exact List.getLast?_concat _

/-- Helper: a CreateCustomer call that returns a null customer leaves the
store unchanged. -/
theorem createCustomer_none_frame (s : Store) (name email : String) (phone : Option String)
    (h : (createCustomer s name email phone).customer = none) :
    (createCustomer s name email phone).store = s := by
  cases hE : emailTaken s email <;> cases hP : phoneCheckFails phone <;>
    simp [createCustomer, hE, hP] at h ⊢

/-- Helper: a CreateProduct call that returns a null product leaves the
store unchanged. -/
theorem createProduct_none_frame (s : Store) (name : String) (price : Rat) (stock : Int)
    (h : (createProduct s name price stock).product = none) :
    (createProduct s name price stock).store = s := by
  by_cases hPr : price ≤ 0 <;> by_cases hSt : stock < 0 <;>
    simp [createProduct, hPr, hSt] at h ⊢

/-- Helper: a CreateOrder call that returns a null order leaves the
store unchanged. -/
theorem createOrder_none_frame (s : Store) (cid : Nat) (pids : List Nat)
    (od : Option Nat) (now : Nat)
    (h : (createOrder s cid pids od now).order = none) :
    (createOrder s cid pids od now).store = s := by
  cases hc : findCustomer s cid with
  | none => simp [createOrder, hc]
  | some c =>
    by_cases hp : pids = []
    · simp [createOrder, hc, hp]
    · by_cases hl : (resolvedProducts s pids).length = pids.length
      · simp [createOrder, hc, hp, hl] at h
      · simp [createOrder, hc, hp, hl]

/-- Helper: the BulkCreateCustomers fold, started from any accumulator,
appends exactly the customers and errors that the row-by-row description
produces. -/
theorem bulk_foldl_spec (rows : List CustomerInput) :
    ∀ (s : Store) (i : Nat) (cs : List Customer) (errs : List String),
      List.foldl bulkStep ⟨cs, errs, s⟩ (rows.enumFrom i) =
        ⟨cs ++ (bulkRowsSpec s i rows).customers,
         errs ++ (bulkRowsSpec s i rows).errors,
         (bulkRowsSpec s i rows).store⟩ := by
  induction rows with
  | nil => intro s i cs errs; simp [bulkRowsSpec]
  | cons row rest ih =>
    intro s i cs errs
    rw [List.enumFrom_cons, List.foldl_cons]
    cases hr : bulkRowCheck s row with
    | ok c =>
      simp only [bulkStep, hr, bulkRowsSpec]
      rw [ih]
      simp [List.append_assoc]
    | error m =>
      simp only [bulkStep, hr, bulkRowsSpec]
      rw [ih]
      simp [List.append_assoc]

/-- Helper: projecting the ids out of a filtered product table is the
same as filtering the table's id column. -/
theorem filter_map_comm (l : List Product) (pids : List Nat) :
    (l.filter (fun p => decide (p.id ∈ pids))).map Product.id
      = (l.map Product.id).filter (fun x => decide (x ∈ pids)) := by
  induction l with
  | nil => rfl
  | cons p rest ih => cases hp : decide (p.id ∈ pids) <;> simp [hp, ih]

/-- Helper: in a table with pairwise-distinct ids, looking a member row
up by its id finds exactly that row. -/
theorem find?_eq_of_mem_of_nodup (P : List Product) (p : Product)
    (hnd : (P.map Product.id).Nodup) (hp : p ∈ P) :
    P.find? (fun q => q.id == p.id) = some p := by
  induction P with
  | nil => cases hp
  | cons q rest ih =>
    rw [List.map_cons, List.nodup_cons] at hnd
    rcases List.mem_cons.mp hp with h | h
    · subst h
      rw [List.find?_cons_of_pos _ (by simp)]
    · have hne : (q.id == p.id) = false := by
        rw [beq_eq_false_iff_ne]
        intro he
        exact hnd.1 (he ▸ List.mem_map_of_mem Product.id h)
      rw [List.find?_cons_of_neg _ (by simp [hne])]
      exact ih hnd.2 h

/-- Helper: when the product table has pairwise-distinct ids and the
requested ids are pairwise distinct and all resolve, the ids of the
resolved products are a permutation of the requested ids. -/
theorem resolved_ids_perm (s : Store) (pids : List Nat)
    (hP : (s.products.map Product.id).Nodup) (hnd : pids.Nodup)
    (hsub : ∀ pid ∈ pids, pid ∈ s.products.map Product.id) :
    ((resolvedProducts s pids).map Product.id).Perm pids := by
  rw [resolvedProducts, filter_map_comm]
  refine (List.perm_ext_iff_of_nodup (hP.filter _) hnd).mpr ?_
  intro x
  simp only [List.mem_filter, decide_eq_true_eq]
  constructor
  · rintro ⟨_, hx⟩; exact hx
  · intro hx; exact ⟨hsub x hx, hx⟩

/-- Claim C1, as frozen, is refuted: in a store whose only customer has
id 1 and whose products have ids 1 and 2, the call
CreateOrder(1, [1, 1]) has a resolving customer id and a non-empty list
of product ids each of which resolves to an existing product (both are
the id 1, present in the table), yet it returns a null order with the
error "Some product IDs are invalid" rather than an order with no
errors. -/
theorem createOrder_dup_ids_counterexample :
    (findCustomer storeA 1).isSome = true ∧
    (1 : Nat) ∈ storeA.products.map Product.id ∧
    ([1, 1] : List Nat) ≠ [] ∧
    (createOrder storeA 1 [1, 1] none 0).order = none ∧
    (createOrder storeA 1 [1, 1] none 0).errors = ["Some product IDs are invalid"] := by
  decide

/-- Claim C1 (amended): for every call CreateOrder(customer_id,
product_ids, order_date?) where the product table has pairwise-distinct
ids, customer_id resolves to an existing customer, and product_ids is a
non-empty list of pairwise-distinct ids that each resolve to an existing
product, the mutation returns an order with errors = [] whose
total_amount equals the exact sum of the resolved products' current
prices (one summand per requested id) and whose associated product set
equals the set of requested products. -/
theorem createOrder_valid_success (s : Store) (cid : Nat) (pids : List Nat)
    (od : Option Nat) (now : Nat)
    (hP : (s.products.map Product.id).Nodup)
    (hc : (findCustomer s cid).isSome = true)
    (hne : pids ≠ []) (hnd : pids.Nodup)
    (hres : ∀ pid ∈ pids, ∃ p ∈ s.products, p.id = pid) :
    (createOrder s cid pids od now).errors = [] ∧
    orderTotal (createOrder s cid pids od now) = some ((pids.map (priceOf s)).sum) ∧
    orderProductSet (createOrder s cid pids od now) = some pids.toFinset := by
  obtain ⟨c, hcc⟩ := Option.isSome_iff_exists.mp hc
  have hsub : ∀ pid ∈ pids, pid ∈ s.products.map Product.id := by
    intro pid hpid
    obtain ⟨p, hmem, hid⟩ := hres pid hpid
    exact hid ▸ List.mem_map_of_mem Product.id hmem
  have hperm := resolved_ids_perm s pids hP hnd hsub
  have hlen : (resolvedProducts s pids).length = pids.length := by
    have h := hperm.length_eq
    rwa [List.length_map] at h
  have htotal : ((resolvedProducts s pids).map Product.price).sum
      = (pids.map (priceOf s)).sum := by
    have h1 : (resolvedProducts s pids).map Product.price
        = ((resolvedProducts s pids).map Product.id).map (priceOf s) := by
      rw [List.map_map]
      refine (List.map_congr_left ?_).symm
      intro p hp
      have hmem : p ∈ s.products := List.mem_of_mem_filter hp
      simp only [Function.comp_apply, priceOf]
      rw [find?_eq_of_mem_of_nodup s.products p hP hmem]
      rfl
    rw [h1]
    exact (hperm.map (priceOf s)).sum_eq
  have hset : ((resolvedProducts s pids).map Product.id).toFinset = pids.toFinset :=
    List.toFinset_eq_of_perm _ _ hperm
  refine ⟨?_, ?_, ?_⟩ <;>
    simp [createOrder, hcc, hne, hlen, orderTotal, orderProductSet, htotal, hset]

/-- Witness for the amended claim C1 at a concrete input: customer 1 and
products [1, 2] of the seeded store. -/
theorem createOrder_valid_success_witness :
    (createOrder storeA 1 [1, 2] none 0).errors = [] ∧
    orderTotal (createOrder storeA 1 [1, 2] none 0)
      = some ((([1, 2] : List Nat).map (priceOf storeA)).sum) ∧
    orderProductSet (createOrder storeA 1 [1, 2] none 0)
      = some ([1, 2] : List Nat).toFinset :=
  createOrder_valid_success storeA 1 [1, 2] none 0
    (by decide) (by decide) (by decide) (by decide) (by decide)

/-- Claim C2: CreateOrder is a strictly sequential gate with early
return: an unresolved customer id yields exactly ["Invalid customer
ID"], then an empty product list yields exactly ["At least one product
must be provided"], then a resolved-count mismatch yields exactly
["Some product IDs are invalid"]; each failure leaves the store
unchanged, and the errors list of every failed CreateOrder has exactly
one element. -/
theorem createOrder_sequential_gate (s : Store) (cid : Nat) (pids : List Nat)
    (od : Option Nat) (now : Nat) :
    (findCustomer s cid = none →
        createOrder s cid pids od now = ⟨none, ["Invalid customer ID"], s⟩) ∧
    ((findCustomer s cid).isSome = true → pids = [] →
        createOrder s cid pids od now = ⟨none, ["At least one product must be provided"], s⟩) ∧
    ((findCustomer s cid).isSome = true → pids ≠ [] →
        (resolvedProducts s pids).length ≠ pids.length →
        createOrder s cid pids od now = ⟨none, ["Some product IDs are invalid"], s⟩) ∧
    ((createOrder s cid pids od now).order = none →
        (createOrder s cid pids od now).errors.length = 1) := by
  refine ⟨?_, ?_, ?_, ?_⟩
  · intro h; simp [createOrder, h]
  · intro h hp
    obtain ⟨c, hc⟩ := Option.isSome_iff_exists.mp h
    subst hp; simp [createOrder, hc]
  · intro h hp hl
    obtain ⟨c, hc⟩ := Option.isSome_iff_exists.mp h
    simp [createOrder, hc, hp, hl]
  · cases hc : findCustomer s cid with
    | none => intro _; simp [createOrder, hc]
    | some c =>
      by_cases hp : pids = []
      · intro _; simp [createOrder, hc, hp]
      · by_cases hl : (resolvedProducts s pids).length = pids.length
        · intro habs; exfalso; simp [createOrder, hc, hp, hl] at habs
        · intro _; simp [createOrder, hc, hp, hl]

/-- Witness for claim C2 at concrete inputs exercising all three gates. -/
theorem createOrder_sequential_gate_witness :
    createOrder storeEmpty 1 [2] none 0 = ⟨none, ["Invalid customer ID"], storeEmpty⟩ ∧
    createOrder storeA 1 [] none 0 = ⟨none, ["At least one product must be provided"], storeA⟩ ∧
    createOrder storeA 1 [9] none 0 = ⟨none, ["Some product IDs are invalid"], storeA⟩ ∧
    (createOrder storeA 1 [9] none 0).errors.length = 1 :=
  ⟨(createOrder_sequential_gate storeEmpty 1 [2] none 0).1 (by decide),
   (createOrder_sequential_gate storeA 1 [] none 0).2.1 (by decide) rfl,
   (createOrder_sequential_gate storeA 1 [9] none 0).2.2.1 (by decide) (by decide) (by decide),
   (createOrder_sequential_gate storeA 1 [9] none 0).2.2.2 (by decide)⟩

/-- Claim C3: BulkCreateCustomers processes its rows in order against
the running store exactly as the row-by-row description says — a
failing row contributes exactly one error string "Row <1-based index>:
<message>" and is not persisted, every passing row is persisted and
returned, a row's failure does not prevent other rows from being
persisted, and both output lists follow input order; in particular for
rows [{ok}, {duplicate email}, {ok}] the result is 2 created customers
and exactly one error string starting with "Row 2: ". -/
theorem bulk_rows_independent :
    (∀ (s : Store) (rows : List CustomerInput),
        bulkCreateCustomers s rows = bulkRowsSpec s 0 rows) ∧
    ((bulkCreateCustomers storeA
        [⟨"Bob", "bob@x", none⟩, ⟨"Carol", "alice@example.com", none⟩,
         ⟨"Dan", "dan@x", none⟩]).customers.length = 2 ∧
      (bulkCreateCustomers storeA
        [⟨"Bob", "bob@x", none⟩, ⟨"Carol", "alice@example.com", none⟩,
         ⟨"Dan", "dan@x", none⟩]).errors = ["Row 2: Duplicate email: alice@example.com"]) := by
  refine ⟨?_, by decide⟩
  intro s rows
  have h := bulk_foldl_spec rows s 0 [] []
  simp only [List.nil_append] at h
  exact h

/-- Witness for claim C3: the concrete three-row batch. -/
theorem bulk_rows_independent_witness :
    (bulkCreateCustomers storeA
        [⟨"Bob", "bob@x", none⟩, ⟨"Carol", "alice@example.com", none⟩,
         ⟨"Dan", "dan@x", none⟩]).customers.length = 2 ∧
    (bulkCreateCustomers storeA
        [⟨"Bob", "bob@x", none⟩, ⟨"Carol", "alice@example.com", none⟩,
         ⟨"Dan", "dan@x", none⟩]).errors = ["Row 2: Duplicate email: alice@example.com"] :=
  bulk_rows_independent.2

/-- Claim C4: for every store state and every email already present
among the stored customers, CreateCustomer with that email returns a
null customer with message "Validation failed" and an errors list
containing "Email already exists", and the store is unchanged. -/
theorem createCustomer_duplicate_email_rejected (s : Store) (name email : String)
    (phone : Option String) (h : ∃ c ∈ s.customers, c.email = email) :
    (createCustomer s name email phone).customer = none ∧
    (createCustomer s name email phone).message = "Validation failed" ∧
    "Email already exists" ∈ (createCustomer s name email phone).errors ∧
    (createCustomer s name email phone).store = s := by
  have hE : emailTaken s email = true := by
    simp only [emailTaken, List.any_eq_true, beq_iff_eq]
    exact h
  cases hP : phoneCheckFails phone <;>
    simp [createCustomer, hE, hP]

/-- Witness for claim C4 at a concrete duplicate email. -/
theorem createCustomer_duplicate_email_witness :
    (createCustomer storeA "Zed" "alice@example.com" none).customer = none ∧
    (createCustomer storeA "Zed" "alice@example.com" none).message = "Validation failed" ∧
    "Email already exists" ∈ (createCustomer storeA "Zed" "alice@example.com" none).errors ∧
    (createCustomer storeA "Zed" "alice@example.com" none).store = storeA :=
  createCustomer_duplicate_email_rejected storeA "Zed" "alice@example.com" none (by decide)

/-- Claim C5: CreateCustomer and CreateProduct do not short-circuit
validation — the errors list is always the concatenation of the two
checks' contributions in check order, so a duplicate email plus invalid
phone yields both messages with the email error first, and
CreateProduct(price = -5, stock = -1) yields a null product with both
the price and the stock messages. -/
theorem validation_checks_all_run :
    (∀ (s : Store) (name email : String) (phone : Option String),
        (createCustomer s name email phone).errors =
          (if emailTaken s email then ["Email already exists"] else []) ++
          (if phoneCheckFails phone then [phoneMsg] else [])) ∧
    (∀ (s : Store) (name : String) (price : Rat) (stock : Int),
        (createProduct s name price stock).errors =
          (if price ≤ 0 then ["Price must be positive"] else []) ++
          (if stock < 0 then ["Stock cannot be negative"] else [])) ∧
    ((createCustomer storeA "Zed" "alice@example.com" (some "12345")).customer = none ∧
      (createCustomer storeA "Zed" "alice@example.com" (some "12345")).errors =
        ["Email already exists", phoneMsg]) ∧
    (∀ (s : Store) (name : String),
        (createProduct s name (-5) (-1)).product = none ∧
        (createProduct s name (-5) (-1)).errors =
          ["Price must be positive", "Stock cannot be negative"]) := by
  refine ⟨?_, ?_, by decide, ?_⟩
  · intro s name email phone
    cases hE : emailTaken s email <;> cases hP : phoneCheckFails phone <;>
      simp [createCustomer, hE, hP]
  · intro s name price stock
    by_cases hPr : price ≤ 0 <;> by_cases hSt : stock < 0 <;>
      simp [createProduct, hPr, hSt]
  · intro s name
    have h1 : ((-5 : Rat) ≤ 0) := by norm_num
    have h2 : ((-1 : Int) < 0) := by norm_num
    simp [createProduct, h1, h2]

/-- Witness for claim C5: the concrete double-violation calls. -/
theorem validation_checks_all_run_witness :
    (createCustomer storeA "Zed" "alice@example.com" (some "12345")).customer = none ∧
    (createCustomer storeA "Zed" "alice@example.com" (some "12345")).errors =
      ["Email already exists", phoneMsg] :=
  validation_checks_all_run.2.2.1

/-- Claim C6, as frozen, is refuted: CreateOrder with an empty
product_ids list does not always return ["At least one product must be
provided"] — the customer lookup runs first, so on the empty store with
an unresolvable customer id the result is ["Invalid customer ID"]
instead. -/
theorem createOrder_empty_list_counterexample :
    (createOrder storeEmpty 1 [] none 0).order = none ∧
    (createOrder storeEmpty 1 [] none 0).errors = ["Invalid customer ID"] ∧
    (createOrder storeEmpty 1 [] none 0).errors ≠ ["At least one product must be provided"] := by
  decide

/-- Claim C6 (amended): for every call to CreateOrder whose customer id
resolves and whose product_ids list is empty, the result is a null
order with errors = ["At least one product must be provided"], and the
store is left unchanged (the code does read the customer table before
reaching this check). -/
theorem createOrder_empty_list_rejected (s : Store) (cid : Nat)
    (od : Option Nat) (now : Nat) (h : (findCustomer s cid).isSome = true) :
    createOrder s cid [] od now = ⟨none, ["At least one product must be provided"], s⟩ := by
  obtain ⟨c, hc⟩ := Option.isSome_iff_exists.mp h
  simp [createOrder, hc]

/-- Witness for the amended claim C6 at a concrete resolving customer. -/
theorem createOrder_empty_list_witness :
    createOrder storeA 1 [] none 0 = ⟨none, ["At least one product must be provided"], storeA⟩ :=
  createOrder_empty_list_rejected storeA 1 none 0 (by decide)

/-- Claim C7, as frozen, is refuted: the check accepts phones with
something after the digits.  "1234567890\n" passes the phone check and
CreateCustomer accepts it on the empty store, although its last
character — after the one-digit-then-seven-or-more body — is a newline,
which is neither a digit nor a hyphen: Python's dollar also matches
just before a newline that ends the string.  The check moreover accepts
strings of decimal digits outside ASCII 0-9, such as the Arabic-Indic
digits, which the last conjunct exhibits. -/
theorem phone_check_counterexample :
    phoneCheckFails (some "1234567890\n") = false ∧
    (createCustomer storeEmpty "Ann" "ann@x" (some "1234567890\n")).errors = [] ∧
    ("1234567890\n").toList.getLast? = some '\n' ∧
    isDigitPy '\n' = false ∧ '\n' ≠ '-' ∧
    phoneCheckFails (some "٠١٢٣٤٥٦٧") = false ∧
    ("٠١٢٣٤٥٦٧").toList.all (fun c => !c.isDigit) = true := by
  decide

/-- Claim C7 (amended): the phone check accepts an absent or empty
phone, and otherwise accepts the phone if and only if it consists of an
optional leading plus, one Unicode decimal digit, then at least seven
more Unicode decimal digits or hyphens, followed by the end of the
string or by a single trailing newline (which Python's dollar admits);
in particular "12345" fails the check (and CreateCustomer reports the
phone-format message exactly when the check fails) while "+1234567890"
passes. -/
theorem phone_check_characterized :
    (∀ (s : Store) (name email : String) (phone : Option String),
        phoneMsg ∈ (createCustomer s name email phone).errors ↔
          phoneCheckFails phone = true) ∧
    phoneCheckFails none = false ∧
    phoneCheckFails (some "") = false ∧
    (∀ str : String, phoneCheckFails (some str) = (!(str == "") && !matchPhone str)) ∧
    (∀ str : String, matchPhone str = true ↔ phoneShape str) ∧
    phoneCheckFails (some "12345") = true ∧
    phoneCheckFails (some "+1234567890") = false := by
  refine ⟨?_, by decide, by decide, ?_, matchPhone_iff, by decide, by decide⟩
  · intro s name email phone
    cases hE : emailTaken s email <;> cases hP : phoneCheckFails phone <;>
      simp [createCustomer, hE, hP, phoneMsg]
  · intro str
    simp [phoneCheckFails, strTruthy]

/-- Witness for claim C7: the two concrete phone strings. -/
theorem phone_check_characterized_witness :
    phoneCheckFails (some "12345") = true ∧
    phoneCheckFails (some "+1234567890") = false :=
  phone_check_characterized.2.2.2.2.2

/-- Claim C8: failed validation-only mutations are idempotent — whenever
CreateCustomer, CreateProduct or CreateOrder returns a null entity, the
store is unchanged, repeating the call any number of times leaves the
store equal to the initial store, and each repetition returns the same
errors list. -/
theorem failed_mutations_idempotent
    (s : Store) (name email : String) (phone : Option String)
    (pname : String) (price : Rat) (stock : Int)
    (cid : Nat) (pids : List Nat) (od : Option Nat) (now : Nat) :
    ((createCustomer s name email phone).customer = none →
        (createCustomer s name email phone).store = s ∧
        ∀ k, (createCustomerStep name email phone)^[k] s = s ∧
          (createCustomer ((createCustomerStep name email phone)^[k] s) name email phone).errors
            = (createCustomer s name email phone).errors) ∧
    ((createProduct s pname price stock).product = none →
        (createProduct s pname price stock).store = s ∧
        ∀ k, (createProductStep pname price stock)^[k] s = s ∧
          (createProduct ((createProductStep pname price stock)^[k] s) pname price stock).errors
            = (createProduct s pname price stock).errors) ∧
    ((createOrder s cid pids od now).order = none →
        (createOrder s cid pids od now).store = s ∧
        ∀ k, (createOrderStep cid pids od now)^[k] s = s ∧
          (createOrder ((createOrderStep cid pids od now)^[k] s) cid pids od now).errors
            = (createOrder s cid pids od now).errors) := by
  refine ⟨?_, ?_, ?_⟩
  · intro h
    have hs := createCustomer_none_frame s name email phone h
    have hfix : createCustomerStep name email phone s = s := hs
    refine ⟨hs, fun k => ⟨Function.iterate_fixed hfix k, ?_⟩⟩
    rw [Function.iterate_fixed hfix k]
  · intro h
    have hs := createProduct_none_frame s pname price stock h
    have hfix : createProductStep pname price stock s = s := hs
    refine ⟨hs, fun k => ⟨Function.iterate_fixed hfix k, ?_⟩⟩
    rw [Function.iterate_fixed hfix k]
  · intro h
    have hs := createOrder_none_frame s cid pids od now h
    have hfix : createOrderStep cid pids od now s = s := hs
    refine ⟨hs, fun k => ⟨Function.iterate_fixed hfix k, ?_⟩⟩
    rw [Function.iterate_fixed hfix k]

/-- Witness for claim C8: three concrete failing calls, each repeated
three times. -/
theorem failed_mutations_idempotent_witness :
    ((createCustomer storeA "Zed" "alice@example.com" none).store = storeA ∧
      (createCustomerStep "Zed" "alice@example.com" none)^[3] storeA = storeA ∧
      (createCustomer ((createCustomerStep "Zed" "alice@example.com" none)^[3] storeA)
          "Zed" "alice@example.com" none).errors
        = (createCustomer storeA "Zed" "alice@example.com" none).errors) ∧
    ((createProduct storeA "W" (-5) (-1)).store = storeA ∧
      (createProductStep "W" (-5) (-1))^[3] storeA = storeA ∧
      (createProduct ((createProductStep "W" (-5) (-1))^[3] storeA) "W" (-5) (-1)).errors
        = (createProduct storeA "W" (-5) (-1)).errors) ∧
    ((createOrder storeA 9 [1] none 0).store = storeA ∧
      (createOrderStep 9 [1] none 0)^[3] storeA = storeA ∧
      (createOrder ((createOrderStep 9 [1] none 0)^[3] storeA) 9 [1] none 0).errors
        = (createOrder storeA 9 [1] none 0).errors) :=
  ⟨⟨((failed_mutations_idempotent storeA "Zed" "alice@example.com" none "W" (-5) (-1) 9 [1] none 0).1
      (by decide)).1,
    (((failed_mutations_idempotent storeA "Zed" "alice@example.com" none "W" (-5) (-1) 9 [1] none 0).1
      (by decide)).2 3).1,
    (((failed_mutations_idempotent storeA "Zed" "alice@example.com" none "W" (-5) (-1) 9 [1] none 0).1
      (by decide)).2 3).2⟩,
   ⟨((failed_mutations_idempotent storeA "Zed" "alice@example.com" none "W" (-5) (-1) 9 [1] none 0).2.1
      (by decide)).1,
    (((failed_mutations_idempotent storeA "Zed" "alice@example.com" none "W" (-5) (-1) 9 [1] none 0).2.1
      (by decide)).2 3).1,
    (((failed_mutations_idempotent storeA "Zed" "alice@example.com" none "W" (-5) (-1) 9 [1] none 0).2.1
      (by decide)).2 3).2⟩,
   ⟨((failed_mutations_idempotent storeA "Zed" "alice@example.com" none "W" (-5) (-1) 9 [1] none 0).2.2
      (by decide)).1,
    (((failed_mutations_idempotent storeA "Zed" "alice@example.com" none "W" (-5) (-1) 9 [1] none 0).2.2
      (by decide)).2 3).1,
    (((failed_mutations_idempotent storeA "Zed" "alice@example.com" none "W" (-5) (-1) 9 [1] none 0).2.2
      (by decide)).2 3).2⟩⟩

/-- Claim C9 contradicts the code as written: src/crm/schema.py uses
re.match, transaction.atomic and timezone.now but has no line bringing
the re, transaction or timezone names into scope, so its CreateCustomer
raises NameError for any call with a non-empty phone, where
src/schema.py returns a normal result.  The variants were clearly meant
to behave identically (the bodies are near-verbatim copies), so this is
a slip in the crm variant.  At the concrete failing input, the
src/schema.py variant succeeds with no errors while the crm variant
raises. -/
theorem schema_variants_diverge_on_phone :
    (createCustomer storeA "Bob" "bob@example.com" (some "+1234567890")).errors = [] ∧
    ((createCustomer storeA "Bob" "bob@example.com" (some "+1234567890")).customer).isSome = true ∧
    createCustomerCrm storeA "Bob" "bob@example.com" (some "+1234567890")
      = .error "NameError: name re is not defined" :=
  ⟨by decide, by decide, rfl⟩

/-- Claim C10: whenever product_ids contains a repeated id — even when
the customer id resolves and every requested id resolves to an existing
product (the product table having pairwise-distinct ids, as a database
primary-key column does) — CreateOrder returns a null order with
errors = ["Some product IDs are invalid"], because the store resolves
the list to distinct rows and their count is compared with the raw
request length; the store is left unchanged. -/
theorem createOrder_duplicate_ids_rejected (s : Store) (cid : Nat) (pids : List Nat)
    (od : Option Nat) (now : Nat)
    (hP : (s.products.map Product.id).Nodup)
    (hc : (findCustomer s cid).isSome = true)
    (hdup : ¬ pids.Nodup)
    (hres : ∀ pid ∈ pids, ∃ p ∈ s.products, p.id = pid) :
    createOrder s cid pids od now = ⟨none, ["Some product IDs are invalid"], s⟩ := by
  obtain ⟨c, hcc⟩ := Option.isSome_iff_exists.mp hc
  have hne : pids ≠ [] := by
    intro h; subst h; exact hdup List.nodup_nil
  have hnodupl : ((resolvedProducts s pids).map Product.id).Nodup := by
    rw [resolvedProducts, filter_map_comm]; exact hP.filter _
  have hsubl : ∀ x ∈ (resolvedProducts s pids).map Product.id, x ∈ pids := by
    intro x hx
    rw [resolvedProducts, filter_map_comm, List.mem_filter] at hx
    exact of_decide_eq_true hx.2
  have h1 : (resolvedProducts s pids).length
      = ((resolvedProducts s pids).map Product.id).toFinset.card := by
    rw [List.toFinset_card_of_nodup hnodupl, List.length_map]
  have h2 : ((resolvedProducts s pids).map Product.id).toFinset ⊆ pids.toFinset := by
    intro x hx
    rw [List.mem_toFinset] at hx ⊢
    exact hsubl x hx
  have h3 : pids.toFinset.card < pids.length := by
    rw [List.card_toFinset]
    have hsl : pids.dedup.Sublist pids := List.dedup_sublist pids
    rcases lt_or_eq_of_le hsl.length_le with h | h
    · exact h
    · exfalso
      have hdd : pids.dedup = pids := hsl.eq_of_length h
      exact hdup (hdd ▸ List.nodup_dedup pids)
  have hlt : (resolvedProducts s pids).length < pids.length := by
    calc (resolvedProducts s pids).length
        = ((resolvedProducts s pids).map Product.id).toFinset.card := h1
      _ ≤ pids.toFinset.card := Finset.card_le_card h2
      _ < pids.length := h3
  have hnee : (resolvedProducts s pids).length ≠ pids.length := Nat.ne_of_lt hlt
  simp [createOrder, hcc, hne, hnee]

/-- Witness for claim C10: the repeated request [1, 1] against the
seeded store. -/
theorem createOrder_duplicate_ids_witness :
    createOrder storeA 1 [1, 1] none 0 = ⟨none, ["Some product IDs are invalid"], storeA⟩ :=
  createOrder_duplicate_ids_rejected storeA 1 [1, 1] none 0
    (by decide) (by decide) (by decide) (by decide)
